import Mathlib

/-!
Verification of the GCE cloud-provider adapter core
(`pkg/cloudprovider/providers/gce/gce.go`).

The Go source is shallow-embedded below: pure helpers become Lean
functions, the external vendor API (zone listing, token fetch) becomes
explicit function parameters, and fallible Go calls returning
`(value, error)` become `Except String value`.
-/

namespace GCE

/-! ### A small regular-expression engine

`gce.go` uses Go's `regexp` package for the single anchored pattern
`^[0-9]+.google.internal.$` (`uselessDNSSearchRE`).  We embed regular
expressions via Brzozowski derivatives; `reMatch` decides whole-string
matching, which is what `MatchString` does on a `^...$`-anchored pattern.
In Go regexps an unescaped `.` matches any character except newline. -/

inductive RE where
  | eps : RE
  | cls : (Char → Bool) → RE
  | seq : RE → RE → RE
  | alt : RE → RE → RE
  | star : RE → RE

def reNullable : RE → Bool
  | .eps => true
  | .cls _ => false
  | .seq a b => reNullable a && reNullable b
  | .alt a b => reNullable a || reNullable b
  | .star _ => true

def reDeriv : RE → Char → RE
  | .eps, _ => .cls fun _ => false
  | .cls p, c => if p c then .eps else .cls fun _ => false
  | .seq a b, c =>
      if reNullable a then .alt (.seq (reDeriv a c) b) (reDeriv b c)
      else .seq (reDeriv a c) b
  | .alt a b, c => .alt (reDeriv a c) (reDeriv b c)
  | .star a, c => .seq (reDeriv a c) (.star a)

def reMatch (r : RE) (s : String) : Bool :=
  reNullable (s.data.foldl reDeriv r)

/-- The regex for a literal string: each character matched exactly. -/
def litRE (s : String) : RE :=
  s.data.foldr (fun c r => .seq (.cls fun d => d == c) r) .eps

/-- The character class `[0-9]`. -/
def digitCls : RE := .cls fun c => decide ('0' ≤ c) && decide (c ≤ '9')

/-- Go's unescaped `.`: any character except newline. -/
def dotAny : RE := .cls fun c => !(c == '\n')

/-- `r+` as `r r*`. -/
def plusRE (r : RE) : RE := .seq r (.star r)

/-- Known-useless DNS search path: the Go pattern `^[0-9]+.google.internal.$`
(`var uselessDNSSearchRE = regexp.MustCompile(...)`, gce.go line 398).
Note the dots are unescaped, so each matches an arbitrary non-newline
character. -/
def uselessDNSSearchRE : RE :=
  .seq (plusRE digitCls)
    (.seq dotAny
      (.seq (litRE "google")
        (.seq dotAny
          (.seq (litRE "internal") dotAny))))

/-- `ScrubDNS` (gce.go lines 401-409): filters DNS settings for pods,
dropping every search entry matched by `uselessDNSSearchRE`; the
nameservers pass through unchanged. -/
def ScrubDNS (nameservers searches : List String) : List String × List String :=
  (nameservers, searches.filter fun s => !(reMatch uselessDNSSearchRE s))

/-! ### Project-identifier and URL helpers -/

/-- `isProjectNumber` (gce.go lines 430-436): project IDs cannot start with
a digit, so an identifier whose first byte is a decimal digit is a project
number. -/
def isProjectNumber (idOrNumber : String) : Bool :=
  match idOrNumber.data with
  | [] => false
  | c :: _ => decide ('0' ≤ c) && decide (c ≤ '9')

/-- `gceNetworkURL` (gce.go lines 414-419): an empty endpoint argument is
replaced by the fixed default before the URL is formatted. -/
def gceNetworkURL (apiEndpoint project network : String) : String :=
  let ep := if apiEndpoint == "" then "https://www.googleapis.com/compute/v1/" else apiEndpoint
  ep ++ "projects/" ++ project ++ "/global/networks/" ++ network

/-- `gceSubnetworkURL` (gce.go lines 421-426). -/
def gceSubnetworkURL (apiEndpoint project region subnetwork : String) : String :=
  let ep := if apiEndpoint == "" then "https://www.googleapis.com/compute/v1/" else apiEndpoint
  ep ++ "projects/" ++ project ++ "/regions/" ++ region ++ "/subnetworks/" ++ subnetwork

/-- The shared-VPC flag computed in `CreateGCECloud` (gce.go line 264):
`onXPN := isProjectNumber(projectID) == isProjectNumber(networkProjectID)
&& projectID != networkProjectID`. -/
def onXPN (projectID networkProjectID : String) : Bool :=
  (isProjectNumber projectID == isProjectNumber networkProjectID)
    && (projectID != networkProjectID)

/-- The `NetworkName` branch of `newGCECloud` (gce.go lines 220-231): a
configured network name containing `/` is used verbatim as the network URL,
otherwise the URL is synthesized with `gceNetworkURL`; an empty name leaves
the previously derived URL in place. -/
def resolveNetworkURL (apiEndpoint networkProjectID networkName priorURL : String) : String :=
  if networkName != "" then
    if networkName.data.contains '/' then networkName
    else gceNetworkURL apiEndpoint networkProjectID networkName
  else priorURL

/-- `getNetworkProjectAndNameViaMetadata` (gce.go lines 452-462), as a
function of the string the metadata service returned for
`instance/network-interfaces/0/network`: split on `/`; any shape other than
exactly 4 components is `unexpected response`; otherwise components 2 and 4
are the network project and name. -/
def getNetworkProjectAndNameViaMetadata (result : String) : Except String (String × String) :=
  let parts := result.splitOn "/"
  if parts.length != 4 then Except.error ("unexpected response: " ++ result)
  else Except.ok (parts.getD 1 "", parts.getD 3 "")

/-! ### Zone discovery

The vendor's zone-list call is opaque (`svc.Zones.List(projectID).Do()`).
We model one response page as a `ZoneList` (items plus `nextPageToken`,
mirroring the vendor schema) and the service as a function from the
project ID to the single response that one `Do()` call yields. -/

/-- One zone record as consumed by `getZonesForRegion`: its name and its
region URL. -/
structure GCEZone where
  name : String
  region : String
deriving DecidableEq

/-- One zone-list response page: the items and the continuation token. -/
structure ZoneList where
  items : List GCEZone
  nextPageToken : String
deriving DecidableEq

/-- Modelled from the spec: the helper `lastComponent` (defined elsewhere
in the repository, not under the staged sources) takes the substring after
the final `/`, i.e. the last path component of a resource URL.  Computed
by scanning the characters, restarting the component at each `/`. -/
def lastComponent (s : String) : String :=
  String.mk (s.data.foldl (fun acc c => if c == '/' then [] else acc ++ [c]) [])

/-- `maxPages` (gce.go line 66): the declared cap on iterated pages. -/
def maxPages : Nat := 25

/-- `getZonesForRegion` (gce.go lines 464-484): issues one
`Zones.List(projectID).Do()` call (the TODO at line 465 records that no
page token is followed) and keeps the names of the returned zones whose
region URL has `region` as its last component. -/
def getZonesForRegion (svc : String → Except String ZoneList)
    (projectID region : String) : Except String (List String) :=
  match svc projectID with
  | Except.error e => Except.error ("unexpected response listing zones: " ++ e)
  | Except.ok res =>
      Except.ok ((res.items.filter fun z => lastComponent z.region == region).map
        fun z => z.name)

/-- A vendor whose page sequence is `pages`: a single un-paginated list
call returns the first page (or fails when there is none). -/
def svcOfPages (pages : List ZoneList) : String → Except String ZoneList :=
  fun _ => match pages with
  | [] => Except.error "no response"
  | p :: _ => Except.ok p

/-- Modelled after the spec words only, for comparison with the source's
`getZonesForRegion`: discovery that walks the vendor's page sequence,
filtering each page to the region, stopping at an empty `nextPageToken`
or after a hard cap of pages. -/
def specPaginatedZoneDiscovery : List ZoneList → String → Nat → List String
  | [], _, _ => []
  | _, _, 0 => []
  | p :: rest, region, Nat.succ fuel =>
      let zs := (p.items.filter fun z => lastComponent z.region == region).map
        fun z => z.name
      if p.nextPageToken == "" then zs
      else zs ++ specPaginatedZoneDiscovery rest region fuel

/-! ### Credential bootstrap

`newOauthClient` (gce.go lines 486-512) validates the token source with
`wait.PollImmediate(5*time.Second, 30*time.Second, ...)`: one immediate
fetch, retried at the interval until the deadline.  `wait.PollImmediate`
lives in `k8s.io/apimachinery`, outside the staged sources, so its retry
schedule is modelled from the spec. -/

/-- Modelled from the spec: `wait.PollImmediate(interval, deadline, cond)`
performs one immediate attempt and then retries every `interval` seconds
while the deadline allows, i.e. attempts happen at times
`0, interval, 2*interval, ...` up to `deadline`; it reports whether any
attempt succeeded. `attempt k` is the outcome of the attempt at time
`k * interval`. -/
def pollImmediate (interval deadline : Nat) (attempt : Nat → Bool) : Bool :=
  (List.range (deadline / interval + 1)).any fun k => attempt k

/-- `newOauthClient` (gce.go lines 486-512), as a function of the token
source's fetch outcomes: forces token fetches with `pollImmediate 5 30`;
when no fetch succeeds within the deadline the poll's timeout error is
returned and no client is produced. -/
def newOauthClient (attempt : Nat → Bool) : Except String Unit :=
  if pollImmediate 5 30 attempt then Except.ok ()
  else Except.error "timed out waiting for the condition"

/-! ### The Cloud Facade -/

/-- The data fields of `GCECloud` (gce.go lines 81-114) that the staged
core reads or writes; the vendor client handles, rate limiter and locks
are runtime objects external to this embedding. -/
structure GCECloud where
  projectID : String
  region : String
  localZone : String
  managedZones : List String
  networkURL : String
  subnetworkURL : String
  networkProjectID : String
  onXPN : Bool
  nodeTags : List String
  nodeInstancePrefix : String
  useMetadataServer : Bool
deriving DecidableEq

/-- `CreateGCECloud` (gce.go lines 259-329), over the modelled external
collaborators: computes the shared-VPC flag, validates the credential via
`newOauthClient` (aborting construction on error), populates
`managedZones` from `getZonesForRegion` when the given list is empty, and
assembles the facade. -/
def CreateGCECloud (apiEndpoint projectID networkProjectID region zone : String)
    (managedZones : List String) (networkURL subnetworkURL : String)
    (nodeTags : List String) (nodeInstancePrefix : String)
    (attempt : Nat → Bool) (useMetadataServer : Bool)
    (svc : String → Except String ZoneList) : Except String GCECloud :=
  let xpn := onXPN projectID networkProjectID
  match newOauthClient attempt with
  | Except.error e => Except.error e
  | Except.ok _ =>
    match (if managedZones.length == 0
           then getZonesForRegion svc projectID region
           else Except.ok managedZones) with
    | Except.error e => Except.error e
    | Except.ok zones =>
        Except.ok
          { projectID := projectID
            region := region
            localZone := zone
            managedZones := zones
            networkURL := networkURL
            subnetworkURL := subnetworkURL
            networkProjectID := networkProjectID
            onXPN := xpn
            nodeTags := nodeTags
            nodeInstancePrefix := nodeInstancePrefix
            useMetadataServer := useMetadataServer }

/-- `LoadBalancer` (gce.go lines 339-341): returns the facade itself as
the capability, with `true`. -/
def GCECloud.LoadBalancer (gce : GCECloud) : GCECloud × Bool := (gce, true)

/-- `Instances` (gce.go lines 344-346). -/
def GCECloud.Instances (gce : GCECloud) : GCECloud × Bool := (gce, true)

/-- `Zones` (gce.go lines 349-351). -/
def GCECloud.Zones (gce : GCECloud) : GCECloud × Bool := (gce, true)

/-- `Clusters` (gce.go lines 353-355). -/
def GCECloud.Clusters (gce : GCECloud) : GCECloud × Bool := (gce, true)

/-- `Routes` (gce.go lines 358-360). -/
def GCECloud.Routes (gce : GCECloud) : GCECloud × Bool := (gce, true)

/-! ## Claims -/

/-- Claim C1, counterexample: on `searches =
["10.0.0.1.google.internal.", "example.com"]` the output searches list is
NOT `["example.com"]` — the pattern `^[0-9]+.google.internal.$` cannot
match the first entry, because `[0-9]+` matches only a digit run and the
single unescaped dot after it matches exactly one character, which cannot
cover the prefix `10.0.0.1.`. -/
theorem C1_counterexample :
    (ScrubDNS ["8.8.8.8"] ["10.0.0.1.google.internal.", "example.com"]).2
      ≠ ["example.com"] := by decide

/-- Claim C1, amended: on the given input `ScrubDNS` preserves the
nameservers unchanged and also returns the searches list unchanged, both
entries kept, since the numeric-label pattern matches neither entry. -/
theorem C1_theorem (nameservers : List String) :
    ScrubDNS nameservers ["10.0.0.1.google.internal.", "example.com"]
      = (nameservers, ["10.0.0.1.google.internal.", "example.com"]) := rfl

/-- Claim C3: the shared-network flag is true iff `projectID` and
`networkProjectID` are of the same kind as decided by `isProjectNumber`
and differ in value; with the three concrete cases of the claim. -/
theorem C3_theorem :
    (∀ projectID networkProjectID : String,
        onXPN projectID networkProjectID = true
          ↔ (isProjectNumber projectID = isProjectNumber networkProjectID
              ∧ projectID ≠ networkProjectID))
      ∧ onXPN "123" "456" = true
      ∧ onXPN "123" "myproj" = false
      ∧ onXPN "myproj" "myproj" = false := by
  refine ⟨fun p n => ?_, by decide, by decide, by decide⟩
  simp [onXPN, Bool.and_eq_true, bne_iff_ne, beq_iff_eq]

/-- Claim C8: `isProjectNumber id` is true iff `id` is non-empty and its
first character is a decimal digit; the empty string yields false. -/
theorem C8_theorem :
    (∀ id : String, isProjectNumber id = true
        ↔ ∃ c rest, id.data = c :: rest ∧ '0' ≤ c ∧ c ≤ '9')
      ∧ isProjectNumber "" = false := by
  refine ⟨fun id => ?_, by decide⟩
  constructor
  · intro h
    match hid : id.data with
    | [] => simp [isProjectNumber, hid] at h
    | c :: rest =>
        have h2 : '0' ≤ c ∧ c ≤ '9' := by
          simpa [isProjectNumber, hid, Bool.and_eq_true, decide_eq_true_eq] using h
        exact ⟨c, rest, rfl, h2.1, h2.2⟩
  · rintro ⟨c, rest, hid, h0, h9⟩
    simp [isProjectNumber, hid, Bool.and_eq_true, decide_eq_true_eq, h0, h9]

/-- Claim C4: for a non-empty configured network name, a name containing
the path separator is taken verbatim as the network URL, and any other
name yields the synthesized
`{endpoint}projects/{networkProjectID}/global/networks/{name}` URL, where
an empty endpoint is replaced by the fixed default. -/
theorem C4_theorem (apiEndpoint networkProjectID networkName priorURL : String)
    (h : networkName ≠ "") :
    (networkName.data.contains '/' = true →
        resolveNetworkURL apiEndpoint networkProjectID networkName priorURL = networkName)
      ∧ (networkName.data.contains '/' = false →
        resolveNetworkURL apiEndpoint networkProjectID networkName priorURL
          = (if apiEndpoint == "" then "https://www.googleapis.com/compute/v1/"
              else apiEndpoint)
            ++ "projects/" ++ networkProjectID ++ "/global/networks/" ++ networkName) := by
  constructor <;> intro hc
  · have hm : '/' ∈ networkName.data := by simpa using hc
    simp [resolveNetworkURL, h, hm]
  · have hm : '/' ∉ networkName.data := by simpa using hc
    simp [resolveNetworkURL, gceNetworkURL, h, hm]

/-- Claim C4, witness: a slash-containing name passes through verbatim; a
plain name is expanded under the default endpoint. -/
theorem C4_witness :
    resolveNetworkURL "" "np" "projects/other/global/networks/custom" "prior"
        = "projects/other/global/networks/custom"
      ∧ resolveNetworkURL "" "np" "mynet" "prior"
        = "https://www.googleapis.com/compute/v1/projects/np/global/networks/mynet" := by
  constructor
  · have h1 := C4_theorem "" "np" "projects/other/global/networks/custom" "prior" (by decide)
    exact h1.1 (by decide)
  · have h2 := C4_theorem "" "np" "mynet" "prior" (by decide)
    rw [h2.2 (by decide)]; rfl

/-- Claim C6: deriving network project and name from the metadata-reported
network URL succeeds exactly on strings that split on `/` into 4
components, returning components 2 and 4; every other shape yields the
`unexpected response` error. -/
theorem C6_theorem (result : String) :
    ((result.splitOn "/").length = 4 →
        getNetworkProjectAndNameViaMetadata result
          = Except.ok ((result.splitOn "/").getD 1 "", (result.splitOn "/").getD 3 ""))
      ∧ ((result.splitOn "/").length ≠ 4 →
        getNetworkProjectAndNameViaMetadata result
          = Except.error ("unexpected response: " ++ result)) := by
  constructor <;> intro h <;> simp [getNetworkProjectAndNameViaMetadata, h]

/-- The page sequence of a misbehaving vendor: the first page carries a
non-empty continuation token and a second page holds a further zone of
the same region. -/
def pagesC2 : List ZoneList :=
  [⟨[⟨"z1", "projects/p/regions/r1"⟩], "tok"⟩,
   ⟨[⟨"z2", "projects/p/regions/r1"⟩], ""⟩]

/-- Claim C2, counterexample: the source's zone discovery does not
paginate at all — on a vendor holding a second page it returns only the
first page's zones (`["z1"]`), while the pagination the claim describes
would continue to the second page and return `["z1", "z2"]`. -/
theorem C2_counterexample :
    getZonesForRegion (svcOfPages pagesC2) "proj" "r1" = Except.ok ["z1"]
      ∧ specPaginatedZoneDiscovery pagesC2 "r1" maxPages = ["z1", "z2"]
      ∧ (["z1"] : List String) ≠ ["z1", "z2"] :=
  ⟨rfl, rfl, by decide⟩

/-- Claim C2, amended: zone discovery issues exactly one list call and
consumes only the first response page — its result is unchanged by any
further pages the vendor may hold, so iteration is bounded at one page
(trivially, it can never loop); the declared cap `maxPages = 25` is not
consulted by `getZonesForRegion`. -/
theorem C2_theorem (page : ZoneList) (rest : List ZoneList) (projectID region : String) :
    getZonesForRegion (svcOfPages (page :: rest)) projectID region
        = getZonesForRegion (svcOfPages [page]) projectID region
      ∧ maxPages = 25 :=
  ⟨rfl, rfl⟩

/-- A vendor whose sole zone-list response holds no zones at all. -/
def svcNoZones : String → Except String ZoneList :=
  fun _ => Except.ok ⟨[], ""⟩

/-- The facade built when discovery finds no zones: `managedZones` ends
empty. -/
def gceNoZones : GCECloud :=
  { projectID := "p", region := "r", localZone := "r-a", managedZones := [],
    networkURL := "", subnetworkURL := "", networkProjectID := "p", onXPN := false,
    nodeTags := [], nodeInstancePrefix := "", useMetadataServer := true }

/-- Claim C5, counterexample: construction can complete successfully with
an EMPTY `managedZones` — when discovery is consulted (initial list
empty) and the vendor reports no zone in the region, `CreateGCECloud`
still returns a facade whose `managedZones` is `[]`, refuting the claimed
non-emptiness invariant. -/
theorem C5_counterexample :
    CreateGCECloud "" "p" "p" "r" "r-a" [] "" "" [] "" (fun _ => true) true svcNoZones
        = Except.ok gceNoZones
      ∧ gceNoZones.managedZones = [] :=
  ⟨rfl, rfl⟩

/-- Every name produced by filtering a page to a region is the name of an
item of that page whose region URL ends in the region. -/
theorem zonesOfPageInRegion (items : List GCEZone) (region : String) :
    (((items.filter fun z => lastComponent z.region == region).map fun z => z.name).all
      fun name => items.any fun z => z.name == name && lastComponent z.region == region)
        = true := by
  simp only [List.all_eq_true, List.mem_map, List.mem_filter, List.any_eq_true]
  rintro name ⟨z, ⟨hz, hreg⟩, rfl⟩
  exact ⟨z, hz, by simp [hreg]⟩

/-- Claim C5, amended: when `managedZones` starts empty and is populated
by zone discovery, every zone name in the constructed facade's
`managedZones` comes from an item of the vendor's response whose region
URL has the resolved region as its last component — but the resulting set
may be empty, since construction does not enforce non-emptiness. -/
theorem C5_theorem (apiEndpoint projectID networkProjectID region zone
      networkURL subnetworkURL nodeInstancePrefix : String)
    (nodeTags : List String) (attempt : Nat → Bool) (useMetadataServer : Bool)
    (svc : String → Except String ZoneList) (page : ZoneList) (g : GCECloud)
    (hsvc : svc projectID = Except.ok page)
    (h : CreateGCECloud apiEndpoint projectID networkProjectID region zone []
          networkURL subnetworkURL nodeTags nodeInstancePrefix attempt
          useMetadataServer svc
        = Except.ok g) :
    (g.managedZones.all fun name =>
        page.items.any fun z => z.name == name && lastComponent z.region == region)
      = true := by
  unfold CreateGCECloud at h
  cases hoc : newOauthClient attempt with
  | error e => rw [hoc] at h; exact absurd h (by simp)
  | ok u =>
    rw [hoc] at h
    simp only [getZonesForRegion, hsvc, List.length_nil] at h
    have hg : ((page.items.filter fun z => lastComponent z.region == region).map
        fun z => z.name) = g.managedZones :=
      congrArg GCECloud.managedZones (Except.ok.inj h)
    rw [← hg]
    exact zonesOfPageInRegion page.items region

/-- Claim C5, witness: with one in-region zone `z1` on the vendor's page,
the constructed facade's managed zones all come from that page. -/
theorem C5_witness :
    ((["z1"] : List String).all fun name =>
        ([⟨"z1", "projects/p/regions/r"⟩] : List GCEZone).any fun z =>
          z.name == name && lastComponent z.region == "r")
      = true :=
  C5_theorem "" "p" "p" "r" "r-a" "" "" "" [] (fun _ => true) true
    (fun _ => Except.ok ⟨[⟨"z1", "projects/p/regions/r"⟩], ""⟩)
    ⟨[⟨"z1", "projects/p/regions/r"⟩], ""⟩
    { projectID := "p", region := "r", localZone := "r-a", managedZones := ["z1"],
      networkURL := "", subnetworkURL := "", networkProjectID := "p", onXPN := false,
      nodeTags := [], nodeInstancePrefix := "", useMetadataServer := true }
    rfl rfl

/-- Claim C7: credential validation retries token fetches at the 5-second
interval under the 30-second deadline; when every attempt within the
deadline fails, construction aborts with the poll timeout error and no
facade is produced. -/
theorem C7_theorem (apiEndpoint projectID networkProjectID region zone : String)
    (managedZones : List String) (networkURL subnetworkURL : String)
    (nodeTags : List String) (nodeInstancePrefix : String)
    (attempt : Nat → Bool) (useMetadataServer : Bool)
    (svc : String → Except String ZoneList)
    (h : ∀ k, 5 * k ≤ 30 → attempt k = false) :
    CreateGCECloud apiEndpoint projectID networkProjectID region zone managedZones
        networkURL subnetworkURL nodeTags nodeInstancePrefix attempt
        useMetadataServer svc
      = Except.error "timed out waiting for the condition" := by
  have hp : pollImmediate 5 30 attempt = false := by
    simp only [pollImmediate, List.any_eq_false, List.mem_range]
    intro k hk
    simp [h k (by omega)]
  simp [CreateGCECloud, newOauthClient, hp]

/-- Claim C7, witness: a token source that never yields a token makes
construction fail with the timeout error. -/
theorem C7_witness :
    CreateGCECloud "" "p" "p" "r" "r-a" ["r-a"] "" "" [] "" (fun _ => false) true
        (fun _ => Except.ok ⟨[], ""⟩)
      = Except.error "timed out waiting for the condition" :=
  C7_theorem "" "p" "p" "r" "r-a" ["r-a"] "" "" [] "" (fun _ => false) true
    (fun _ => Except.ok ⟨[], ""⟩) (fun _ _ => rfl)

/-- Claim C9: each capability accessor returns the facade itself (a
non-null capability object) together with `true`, for every facade
state. -/
theorem C9_theorem (gce : GCECloud) :
    gce.LoadBalancer = (gce, true)
      ∧ gce.Instances = (gce, true)
      ∧ gce.Zones = (gce, true)
      ∧ gce.Clusters = (gce, true)
      ∧ gce.Routes = (gce, true) :=
  ⟨rfl, rfl, rfl, rfl, rfl⟩

/-- Claim C10: an empty endpoint argument makes the URL-synthesis
functions behave exactly as the fixed default endpoint does, for all
projects, regions and names. -/
theorem C10_theorem (project region network subnetwork : String) :
    gceNetworkURL "" project network
        = gceNetworkURL "https://www.googleapis.com/compute/v1/" project network
      ∧ gceSubnetworkURL "" project region subnetwork
        = gceSubnetworkURL "https://www.googleapis.com/compute/v1/" project region subnetwork :=
  ⟨rfl, rfl⟩

end GCE
